import Mathlib

/-!
Verification of the BLE dongle driver in src/lib/Dongle.js.

The development is a shallow embedding of the parts of the `Dongle` class
relevant to the watch / superwatch notification-slot registry, the
transport-chunking `write`, the legacy command/response correlator
(`__command` / `sendNextCommand` / `handleResponseTimeout`) and
`disconnect`.  Pure data is modelled directly; callback invocation is
modelled by returning the list of invocations an operation performs, and
BLE side effects (subscribe, unsubscribe, command round trips) are modelled
by returning the ordered list of actions an operation issues.  Callbacks
are identified by natural numbers.  JavaScript byte buffers are lists of
naturals; Buffer.from truncates each entry modulo 256.
-/

/-- Slot index reserved for the super-watcher (source: `SLOT_SUPERWATCH = 0x10`). -/
def SLOT_SUPERWATCH : Nat := 0x10

/-- Command op code CONFIGURE (source: `OP_CONFIGURE = 0`). -/
def OP_CONFIGURE : Nat := 0

/-- Command op code KEYSWITCH (source: `OP_KEYSWITCH = 1`). -/
def OP_KEYSWITCH : Nat := 1

/-- Command op code WATCH (source: `OP_WATCH = 2`). -/
def OP_WATCH : Nat := 2

/-- Command op code UNWATCH (source: `OP_UNWATCH = 3`). -/
def OP_UNWATCH : Nat := 3

/-- Command op code UNWATCH_ALL (source: `OP_UNWATCH_ALL = 4`). -/
def OP_UNWATCH_ALL : Nat := 4

/-- Command op code SUPERWATCH (source: `OP_SUPERWATCH = 5`). -/
def OP_SUPERWATCH : Nat := 5

/-- Number of ordinary notification slots.  In the source this is
`this.numStatus = this.uuidStatus.length`, and `this.uuidStatus` is the
literal array of the 20 status characteristic UUIDs with suffixes
06 through 19 (hex). -/
def numStatus : Nat := 20

/-- The unit id used for messages directed at the dongle itself
(constructor: `this.id = 254`, "hardcoded in the dongle"). -/
def DONGLE_ID : Nat := 254

/-- Modelled from the spec: the hardware maximum number of 16-bit addresses
that a superwatch may aggregate ("up to a hardware-defined maximum
(e.g. 25)").  No such constant, and no length check, appears anywhere in
src/lib/Dongle.js; the constant exists only so the corresponding claim can
be stated. -/
def SUPERWATCH_MAX : Nat := 25

/-- The BLE chunk size used by `write` (source: `var chunkSize = 20;`). -/
def chunkSize : Nat := 20

/-- Model of `Buffer.from` applied to an array of numbers: each entry is
truncated to a byte. -/
def bufferFrom (l : List Nat) : List Nat := l.map (fun b => b % 256)

/-- A JavaScript value that can sit in the `responseTimer` field of a queued
command: `null` (its initial value), `undefined`, or a timer handle returned
by `setTimeout` (handles are compared by identity, modelled by a numeric
id).  The three kinds are pairwise distinct under strict equality `===`. -/
inductive JsTimerVal
  | null
  | undefined
  | handle (id : Nat)
deriving DecidableEq

/-- One entry of `this.commandQueue`, as pushed by `__command`:
`{ command, sequence, responseTimer, options, callback }` (of `options`
only `options.timeout` matters here). -/
structure PendingCommand where
  command : List Nat
  sequence : Nat
  responseTimer : JsTimerVal
  timeoutMs : Nat
  callback : Nat
deriving DecidableEq

/-- Errors a queued command callback can be invoked with.  `timeout` models
`new Error("Timeout")` from `handleResponseTimeout`.  `disconnected` models
the `Disconnected` error of the specification; no such error exists
anywhere in the source — the constructor is needed only to state the
corresponding claim. -/
inductive CmdErr
  | timeout
  | disconnected
deriving DecidableEq

/-- BLE side effects issued by the watch family, in order:
unsubscribing/subscribing a status characteristic, the same for the
superwatch characteristic, and a command round trip
`command(unit, op, payload)` through the modbus master. -/
inductive BleAction
  | unsubscribeStatus (slot : Nat)
  | subscribeStatus (slot : Nat)
  | unsubscribeSuperwatch
  | subscribeSuperwatch
  | sendCommand (unit : Nat) (op : Nat) (payload : List Nat)
deriving DecidableEq

/-- Recognizer for the command round-trip action. -/
def isSendCommand : BleAction → Bool
  | BleAction.sendCommand _ _ _ => true
  | _ => false

/-- Rejection values of the watch family promises.  `invalidWatchSlot`
models `Promise.reject("watch requested for invalid slot number")` and
`invalidUnwatchSlot` models
`Promise.reject("unwatch requested for invalid slot number")`. -/
inductive JsReject
  | invalidWatchSlot
  | invalidUnwatchSlot
deriving DecidableEq

/-- The mutable state of one `Dongle` instance (the fields of the class
that the claims concern).  `watcherCb` is the `this.watcherCb` array
(`none` models both a missing entry and an entry set to `null`;
`onStatus` only calls entries of function type).  `statusSubscribed i`
and `superwatchSubscribed` track whether the corresponding characteristic
is currently subscribed to hardware notifications. -/
structure Dongle where
  watcherCb : Nat → Option Nat
  statusSubscribed : Nat → Bool
  superwatchSubscribed : Bool
  commandQueue : List PendingCommand
  commandSequence : Nat
  connected : Bool
  rxCharacteristic : Bool
  txCharacteristic : Bool
  deviceType : Option Nat
  peripheral : Bool
  controllerService : Bool

/-- The state of a freshly connected dongle after `inspectDevice`:
empty callback table (`me.watcherCb[i] = null` for each slot), nothing
subscribed for watching, empty command queue, sequence 0, connected with
all characteristics resolved. -/
def initialDongle : Dongle where
  watcherCb := fun _ => none
  statusSubscribed := fun _ => false
  superwatchSubscribed := false
  commandQueue := []
  commandSequence := 0
  connected := true
  rxCharacteristic := true
  txCharacteristic := true
  deviceType := some 0
  peripheral := true
  controllerService := true

/-- Result of one watch-family operation: the new dongle state, the ordered
list of BLE actions the promise chain issues (each BLE primitive and the
command round trip are modelled as succeeding), and the value the returned
promise settles with. -/
structure OpResult where
  state : Dongle
  actions : List BleAction
  result : Except JsReject Unit

/-- Model of `Dongle.watch(slot, id, address, length, cb)` (the five
argument form; the source also lets `length` default to 1 when omitted).
When `slot < numStatus` the source sets `watcherCb[slot] = cb` and then
chains unsubscribe of `statusChar[slot]`, a WATCH command with payload
`Buffer.from([slot, id, address >> 8, address & 0xFF, length])`, and a
resubscribe of `statusChar[slot]`; otherwise it rejects without touching
anything. -/
def Dongle.watch (st : Dongle) (slot id address len cb : Nat) : OpResult :=
  if slot < numStatus then
    { state := { st with
        watcherCb := fun s => if s = slot then some cb else st.watcherCb s,
        statusSubscribed := fun s => if s = slot then true else st.statusSubscribed s },
      actions := [BleAction.unsubscribeStatus slot,
        BleAction.sendCommand DONGLE_ID OP_WATCH
          (bufferFrom [slot, id, address / 256, address % 256, len]),
        BleAction.subscribeStatus slot],
      result := Except.ok () }
  else
    { state := st, actions := [], result := Except.error JsReject.invalidWatchSlot }

/-- Model of `Dongle.unwatch(slot)`.  When `slot < numStatus` the source
sets `watcherCb[slot] = null` and chains unsubscribe of `statusChar[slot]`
and an UNWATCH command with payload `Buffer.from([slot])`; otherwise it
rejects without touching anything. -/
def Dongle.unwatch (st : Dongle) (slot : Nat) : OpResult :=
  if slot < numStatus then
    { state := { st with
        watcherCb := fun s => if s = slot then none else st.watcherCb s,
        statusSubscribed := fun s => if s = slot then false else st.statusSubscribed s },
      actions := [BleAction.unsubscribeStatus slot,
        BleAction.sendCommand DONGLE_ID OP_UNWATCH (bufferFrom [slot])],
      result := Except.ok () }
  else
    { state := st, actions := [], result := Except.error JsReject.invalidUnwatchSlot }

/-- The command payload built by `superwatch`:
`let commandArray = [SLOT_SUPERWATCH, id]` followed by
`addresses.forEach(a => { push(a >> 8); push(a & 0xFF); })`. -/
def superwatchPayload (id : Nat) (addresses : List Nat) : List Nat :=
  addresses.foldl (fun acc a => acc ++ [a / 256, a % 256]) [SLOT_SUPERWATCH, id]

/-- Model of `Dongle.superwatch(id, addresses, cb)`.  The source performs
no validation of `addresses` at all: it unconditionally sets
`watcherCb[SLOT_SUPERWATCH] = cb` and chains unsubscribe of the superwatch
characteristic, a SUPERWATCH command with payload
`Buffer.from(commandArray)`, and a resubscribe of the superwatch
characteristic, resolving on success. -/
def Dongle.superwatch (st : Dongle) (id : Nat) (addresses : List Nat) (cb : Nat) : OpResult :=
  { state := { st with
      watcherCb := fun s => if s = SLOT_SUPERWATCH then some cb else st.watcherCb s,
      superwatchSubscribed := true },
    actions := [BleAction.unsubscribeSuperwatch,
      BleAction.sendCommand DONGLE_ID OP_SUPERWATCH (bufferFrom (superwatchPayload id addresses)),
      BleAction.subscribeSuperwatch],
    result := Except.ok () }

/-- Model of `Dongle.onStatus(slot, data)`, the data handler installed on
`statusChar[slot]` for every `slot < numStatus` during `inspectDevice`.
It returns the list of callback invocations performed: when
`slot < this.numStatus` and `watcherCb[slot]` is a function it calls
`watcherCb[slot](data, slot)`, otherwise it does nothing. -/
def Dongle.onStatus (st : Dongle) (slot : Nat) (data : List Nat) : List (Nat × List Nat × Nat) :=
  if slot < numStatus then
    match st.watcherCb slot with
    | some cb => [(cb, data, slot)]
    | none => []
  else []

/-- Effects on the command/response correlator path: the
`emit("sendCommand", ...)` diagnostic event and the write of the command
bytes to the command characteristic. -/
inductive CmdAction
  | emitSendCommand (bytes : List Nat)
  | writeCommandChar (bytes : List Nat)
deriving DecidableEq

/-- Result of one correlator step: the new state, the ordered actions, the
callback invocations `(callback, error)` performed, and the timers started
by `setTimeout` (by handle id). -/
structure CmdStep where
  state : Dongle
  actions : List CmdAction
  invoked : List (Nat × CmdErr)
  timersStarted : List Nat

/-- Model of `Dongle.sendNextCommand()`.  When the queue is non-empty the
source emits `sendCommand` and calls
`me.writeCharacteristic(me.commandChar, command.command, function(err) ...)`.
`writeCharacteristic(characteristic, value)` is declared with exactly two
parameters and returns a promise, so the completion function passed as the
third argument is discarded, never invoked: neither its error branch
(`command.callback(err)`, shift, send next) nor its success branch
(`command.responseTimer = setTimeout(me.handleResponseTimeout.bind(this),
command.options.timeout)`) ever runs.  Consequently the state is unchanged,
no callback is invoked, and no timer is ever started. -/
def Dongle.sendNextCommand (st : Dongle) : CmdStep :=
  match st.commandQueue with
  | [] => { state := st, actions := [], invoked := [], timersStarted := [] }
  | cmd :: _ =>
    { state := st,
      actions := [CmdAction.emitSendCommand cmd.command, CmdAction.writeCommandChar cmd.command],
      invoked := [],
      timersStarted := [] }

/-- The argument `handleResponseTimeout` actually receives when a timer
created by `setTimeout(me.handleResponseTimeout.bind(this), timeout)`
fires: `bind` fixes only `this` and `setTimeout` is given no extra
arguments, so the `timer` parameter is `undefined`. -/
def timerFireArg : JsTimerVal := JsTimerVal.undefined

/-- Model of `Dongle.handleResponseTimeout(timer)`.  When the queue is
non-empty and `command.responseTimer === timer` (strict equality), the head
command is failed with `new Error("Timeout")`, shifted off the queue, and
`sendNextCommand` is called; otherwise nothing happens. -/
def Dongle.handleResponseTimeout (st : Dongle) (timer : JsTimerVal) : CmdStep :=
  match st.commandQueue with
  | [] => { state := st, actions := [], invoked := [], timersStarted := [] }
  | cmd :: rest =>
    if cmd.responseTimer = timer then
      let next := Dongle.sendNextCommand { st with commandQueue := rest }
      { state := next.state,
        actions := next.actions,
        invoked := (cmd.callback, CmdErr.timeout) :: next.invoked,
        timersStarted := next.timersStarted }
    else
      { state := st, actions := [], invoked := [], timersStarted := [] }

/-- Model of `Dongle.__command(command, callback, options)`: pushes
`{ command, sequence: commandSequence, responseTimer: null, options,
callback }` onto the queue, increments `commandSequence` modulo 256, and
calls `sendNextCommand` when the queue now has exactly one entry. -/
def Dongle.__command (st : Dongle) (command : List Nat) (timeoutMs : Nat) (callback : Nat) :
    CmdStep :=
  let entry : PendingCommand :=
    { command := command, sequence := st.commandSequence, responseTimer := JsTimerVal.null,
      timeoutMs := timeoutMs, callback := callback }
  let st1 : Dongle :=
    { st with
      commandQueue := st.commandQueue ++ [entry],
      commandSequence := (st.commandSequence + 1) % 256 }
  if st1.commandQueue.length = 1 then
    Dongle.sendNextCommand st1
  else
    { state := st1, actions := [], invoked := [], timersStarted := [] }

/-- Model of `Dongle.disconnect()` (success path of
`me.peripheral.disconnect(callback)`): the callback nulls
`rxCharacteristic`, `txCharacteristic`, `deviceType`, `peripheral` and
`controllerService`, sets `connected = false`, emits `disconnected` and
resolves.  The command queue is not touched and no queued callback is
invoked with any error; the second component is the list of
`(callback, error)` invocations performed, which is empty. -/
def Dongle.disconnect (st : Dongle) : Dongle × List (Nat × CmdErr) :=
  ({ st with
      rxCharacteristic := false, txCharacteristic := false, deviceType := none,
      peripheral := false, controllerService := false, connected := false }, [])

/-- Fuel-indexed translation of the chunking loop in `Dongle.write`:
`while (index < data.length) { chunk = data.slice(index, index + chunkSize);
writes.push(writeCharacteristic(tx, chunk)); index += chunkSize; }`.
Each iteration takes the next `chunkSize` bytes; `slice` clamps at the end
of the buffer.  The fuel is instantiated with `data.length`, which bounds
the number of iterations. -/
def writeChunksGo : Nat → List Nat → List (List Nat)
  | 0, _ => []
  | _ + 1, [] => []
  | fuel + 1, x :: xs => ((x :: xs).take chunkSize) :: writeChunksGo fuel ((x :: xs).drop chunkSize)

/-- The ordered list of chunks the `write` loop carves out of `data`. -/
def writeChunks (data : List Nat) : List (List Nat) := writeChunksGo data.length data

/-- What the caller of `write` receives.  The source function has no return
statement, so the caller always receives `undefined`; `promiseAll` is the
value the specification describes (a completion that settles once all
chunk writes have settled) and appears nowhere in the source. -/
inductive WriteReturn
  | undefined
  | promiseAll
deriving DecidableEq

/-- Observable outcome of one `Dongle.write(data)` call: the chunk writes
issued to the tx characteristic in order, the value returned to the
caller, and the error surfaced to the caller, if any. -/
structure SendResult where
  issuedWrites : List (List Nat)
  returned : WriteReturn
  surfacedError : Option Nat
deriving DecidableEq

/-- Model of `Dongle.write(data)`.  `chunkErr i` is the outcome of the
underlying write of chunk `i` (`none` fulfilled, `some e` rejected with
transport error `e`).  The result does not depend on `chunkErr`: the loop
pushes every chunk write synchronously before any outcome is observed, and
the source then runs `Promise.all(writes).then(function() {}).catch(
function() {})` — the fulfillment handler is empty (`resolve` is commented
out) and the rejection handler is empty (`reject(err)` is commented out) —
so every outcome is discarded and the function returns `undefined`.  When
`txCharacteristic` is absent nothing at all happens. -/
def Dongle.write (txPresent : Bool) (chunkErr : Nat → Option Nat) (data : List Nat) :
    SendResult :=
  if txPresent then
    { issuedWrites := writeChunks data, returned := WriteReturn.undefined, surfacedError := none }
  else
    { issuedWrites := [], returned := WriteReturn.undefined, surfacedError := none }

/-- Chunk-write outcome environment in which every underlying write
succeeds. -/
def noFail : Nat → Option Nat := fun _ => none

/-- Chunk-write outcome environment in which the very first chunk write
rejects with transport error 1 and all others succeed. -/
def failFirst : Nat → Option Nat := fun i => if i = 0 then some 1 else none

/-- Two concrete queued commands used to evaluate `disconnect`. -/
def cmdA : PendingCommand :=
  { command := [1], sequence := 0, responseTimer := JsTimerVal.null, timeoutMs := 500,
    callback := 7 }

/-- Second concrete queued command. -/
def cmdB : PendingCommand :=
  { command := [2], sequence := 1, responseTimer := JsTimerVal.null, timeoutMs := 500,
    callback := 8 }

/-- A connected dongle with two requests waiting in the command queue. -/
def stTwoQueued : Dongle := { initialDongle with commandQueue := [cmdA, cmdB] }

/-- The queue entry `__command` pushes for command bytes `[1, 2, 3]`,
timeout 500 ms and callback 7: its `responseTimer` is `null`. -/
def pendingNull : PendingCommand :=
  { command := [1, 2, 3], sequence := 0, responseTimer := JsTimerVal.null, timeoutMs := 500,
    callback := 7 }

/-- The same queue entry as it would look had the intended
`setTimeout` assignment run: `responseTimer` holds the timer handle. -/
def pendingArmed : PendingCommand :=
  { command := [1, 2, 3], sequence := 0, responseTimer := JsTimerVal.handle 0, timeoutMs := 500,
    callback := 7 }

/-- A dongle whose single in-flight request carries a started response
timer (handle 0). -/
def stArmed : Dongle :=
  { initialDongle with commandQueue := [pendingArmed], commandSequence := 1 }

/-- Flattening the chunk list reconstructs the original buffer (chunks are in
order and chunk boundaries are transparent). -/
theorem writeChunksGo_flatten (fuel : Nat) :
    ∀ d : List Nat, d.length ≤ fuel → (writeChunksGo fuel d).flatten = d := by
  induction fuel with
  | zero =>
    intro d hd
    have hnil : d = [] := List.eq_nil_of_length_eq_zero (Nat.le_zero.mp hd)
    subst hnil
    rfl
  | succ n ih =>
    intro d hd
    match d with
    | [] => rfl
    | x :: xs =>
      have hlen : ((x :: xs).drop chunkSize).length ≤ n := by
        simp only [List.length_drop, List.length_cons, chunkSize]
        simp only [List.length_cons] at hd
        omega
      simp only [writeChunksGo, List.flatten_cons]
      rw [ih _ hlen]
      exact List.take_append_drop chunkSize (x :: xs)

/-- The loop produces ceil(len / 20) chunks. -/
theorem writeChunksGo_length (fuel : Nat) :
    ∀ d : List Nat, d.length ≤ fuel →
      (writeChunksGo fuel d).length = (d.length + 19) / 20 := by
  induction fuel with
  | zero =>
    intro d hd
    have hnil : d = [] := List.eq_nil_of_length_eq_zero (Nat.le_zero.mp hd)
    subst hnil
    rfl
  | succ n ih =>
    intro d hd
    match d with
    | [] => rfl
    | x :: xs =>
      have hlen : ((x :: xs).drop chunkSize).length ≤ n := by
        simp only [List.length_drop, List.length_cons, chunkSize]
        simp only [List.length_cons] at hd
        omega
      simp only [writeChunksGo, List.length_cons]
      rw [ih _ hlen, List.length_drop]
      simp only [List.length_cons, chunkSize]
      omega

/-- Every chunk is nonempty and at most 20 bytes. -/
theorem writeChunksGo_sizes (fuel : Nat) :
    ∀ d : List Nat, d.length ≤ fuel →
      ∀ c ∈ writeChunksGo fuel d, 0 < c.length ∧ c.length ≤ 20 := by
  induction fuel with
  | zero =>
    intro d hd c hc
    have hnil : d = [] := List.eq_nil_of_length_eq_zero (Nat.le_zero.mp hd)
    subst hnil
    simp [writeChunksGo] at hc
  | succ n ih =>
    intro d hd c hc
    match d with
    | [] => simp [writeChunksGo] at hc
    | x :: xs =>
      have hlen : ((x :: xs).drop chunkSize).length ≤ n := by
        simp only [List.length_drop, List.length_cons, chunkSize]
        simp only [List.length_cons] at hd
        omega
      simp only [writeChunksGo, List.mem_cons] at hc
      rcases hc with hc | hc
      · subst hc
        simp only [List.length_take, List.length_cons, chunkSize]
        omega
      · exact ih _ hlen c hc

/-- Every chunk except possibly the final one is exactly 20 bytes. -/
theorem writeChunksGo_dropLast (fuel : Nat) :
    ∀ d : List Nat, d.length ≤ fuel →
      ∀ c ∈ (writeChunksGo fuel d).dropLast, c.length = 20 := by
  induction fuel with
  | zero =>
    intro d hd c hc
    have hnil : d = [] := List.eq_nil_of_length_eq_zero (Nat.le_zero.mp hd)
    subst hnil
    simp [writeChunksGo] at hc
  | succ n ih =>
    intro d hd c hc
    match d with
    | [] => simp [writeChunksGo] at hc
    | x :: xs =>
      have hlen : ((x :: xs).drop chunkSize).length ≤ n := by
        simp only [List.length_drop, List.length_cons, chunkSize]
        simp only [List.length_cons] at hd
        omega
      rw [writeChunksGo] at hc
      rcases hrest : writeChunksGo n ((x :: xs).drop chunkSize) with _ | ⟨r, rs⟩
      · rw [hrest] at hc
        simp [List.dropLast] at hc
      · rw [hrest] at hc
        simp only [List.dropLast, List.mem_cons] at hc
        rcases hc with hc | hc
        · subst hc
          have hne : (x :: xs).drop chunkSize ≠ [] := by
            intro h0
            rw [h0] at hrest
            cases n <;> simp [writeChunksGo] at hrest
          have h20 : 20 < (x :: xs).length := by
            by_contra hle
            push_neg at hle
            exact hne (List.drop_eq_nil_of_le (by simpa [chunkSize] using hle))
          simp only [List.length_take, List.length_cons, chunkSize]
          simp only [List.length_cons] at h20
          omega
        · exact ih _ hlen c (hrest ▸ hc)

/-- Chunk list of a buffer joins back to the buffer. -/
theorem writeChunks_flatten (d : List Nat) : (writeChunks d).flatten = d :=
  writeChunksGo_flatten d.length d le_rfl

/-- A buffer is split into ceil(len / 20) chunks. -/
theorem writeChunks_length (d : List Nat) : (writeChunks d).length = (d.length + 19) / 20 :=
  writeChunksGo_length d.length d le_rfl

/-- Every chunk is nonempty and at most 20 bytes. -/
theorem writeChunks_sizes (d : List Nat) :
    ∀ c ∈ writeChunks d, 0 < c.length ∧ c.length ≤ 20 :=
  writeChunksGo_sizes d.length d le_rfl

/-- Every chunk except possibly the final one is exactly 20 bytes. -/
theorem writeChunks_dropLast (d : List Nat) :
    ∀ c ∈ (writeChunks d).dropLast, c.length = 20 :=
  writeChunksGo_dropLast d.length d le_rfl

/-- Claim C1 (code evaluation): the Timeout path of the command/response
correlator is dead code.  Enqueuing a request on an idle correlator sends
it but starts no response timer (`__command` / `sendNextCommand` pass the
completion callback that would call `setTimeout` as a third argument to
the two-parameter `writeCharacteristic`, which discards it), and even for
a queue whose head carries a started timer handle, the firing timer calls
`handleResponseTimeout` with `undefined`, which is never strictly equal to
the stored handle, so the guard fails: the state is unchanged, the
callback is not invoked with Timeout, the request is not popped, and no
next request is sent. -/
theorem timeoutPathDead :
    (Dongle.__command initialDongle [1, 2, 3] 500 7).timersStarted = [] ∧
    (Dongle.__command initialDongle [1, 2, 3] 500 7).state.commandQueue = [pendingNull] ∧
    Dongle.handleResponseTimeout stArmed timerFireArg =
      { state := stArmed, actions := [], invoked := [], timersStarted := [] } :=
  ⟨rfl, rfl, rfl⟩

/-- Claim C2 (amended): `superwatch(id, addresses, cb)` performs no length
validation at all.  For every address list, of any length, it installs the
callback in the table entry `SLOT_SUPERWATCH`, issues the unsubscribe, the
SUPERWATCH command carrying `[SLOT_SUPERWATCH, id]` followed by the
high/low bytes of every address, and the resubscribe, and resolves; it
never fails with a TooManyAddresses error. -/
theorem superwatchNoValidation (st : Dongle) (id : Nat) (addresses : List Nat) (cb : Nat) :
    (Dongle.superwatch st id addresses cb).result = Except.ok () ∧
    (Dongle.superwatch st id addresses cb).actions =
      [BleAction.unsubscribeSuperwatch,
        BleAction.sendCommand DONGLE_ID OP_SUPERWATCH
          (bufferFrom (superwatchPayload id addresses)),
        BleAction.subscribeSuperwatch] ∧
    (Dongle.superwatch st id addresses cb).state.watcherCb SLOT_SUPERWATCH = some cb :=
  ⟨rfl, rfl, rfl⟩

/-- Claim C2 (witness): the amended behaviour at a 26-address list. -/
theorem superwatchNoValidationInst :
    (Dongle.superwatch initialDongle 1 (List.replicate 26 32) 9).result = Except.ok () :=
  (superwatchNoValidation initialDongle 1 (List.replicate 26 32) 9).1

/-- Claim C2 (counterexample): a list of 26 addresses exceeds the hardware
maximum of 25, yet `superwatch` does not fail with any error and does send
a command to the device — the claim is false at this input. -/
theorem superwatchNoLengthCheckCex :
    SUPERWATCH_MAX < (List.replicate 26 32).length ∧
    (Dongle.superwatch initialDongle 1 (List.replicate 26 32) 9).result = Except.ok () ∧
    (Dongle.superwatch initialDongle 1 (List.replicate 26 32) 9).actions.filter isSendCommand ≠
      [] :=
  ⟨by decide, rfl, by decide⟩

/-- Claim C3 (code evaluation): the reserved superwatch slot is NOT
distinct from the ordinary slots.  `SLOT_SUPERWATCH = 0x10 = 16` lies
below `numStatus = 20`, so after `watch(16, ...)` installs callback 1 on
ordinary slot 16, `superwatch` overwrites that slot with its own callback
2, and a notification arriving on ordinary slot 16 invokes the superwatch
callback. -/
theorem superwatchSlotCollision :
    SLOT_SUPERWATCH < numStatus ∧
    (Dongle.watch initialDongle 16 1 95 1 1).state.watcherCb 16 = some 1 ∧
    (Dongle.superwatch (Dongle.watch initialDongle 16 1 95 1 1).state 1 [95] 2).state.watcherCb
        16 = some 2 ∧
    Dongle.onStatus
        (Dongle.superwatch (Dongle.watch initialDongle 16 1 95 1 1).state 1 [95] 2).state
        16 [171] = [(2, [171], 16)] :=
  ⟨by decide, rfl, rfl, rfl⟩

/-- Claim C4 (amended): `disconnect` resets the connection fields
(rx/tx characteristics, device type, peripheral, controller service and
the connected flag) but does not touch the command queue: no pending
request callback is invoked with any error — in particular not with a
Disconnected error — and the queue is left exactly as it was, not
cleared. -/
theorem disconnectSpec (st : Dongle) :
    (Dongle.disconnect st).1.commandQueue = st.commandQueue ∧
    (Dongle.disconnect st).2 = [] ∧
    (Dongle.disconnect st).1.connected = false ∧
    (Dongle.disconnect st).1.rxCharacteristic = false ∧
    (Dongle.disconnect st).1.txCharacteristic = false ∧
    (Dongle.disconnect st).1.deviceType = none ∧
    (Dongle.disconnect st).1.peripheral = false ∧
    (Dongle.disconnect st).1.controllerService = false :=
  ⟨rfl, rfl, rfl, rfl, rfl, rfl, rfl, rfl⟩

/-- Claim C4 (witness): the amended behaviour at a dongle with two queued
requests. -/
theorem disconnectSpecInst :
    (Dongle.disconnect stTwoQueued).1.commandQueue = stTwoQueued.commandQueue ∧
    (Dongle.disconnect stTwoQueued).2 = [] :=
  ⟨(disconnectSpec stTwoQueued).1, (disconnectSpec stTwoQueued).2.1⟩

/-- Claim C4 (counterexample): with two requests queued (callbacks 7 and
8), disconnecting neither clears the queue nor fails the requests with a
Disconnected error — the claim is false at this input. -/
theorem disconnectQueueCex :
    ¬ ((Dongle.disconnect stTwoQueued).1.commandQueue = [] ∧
       (Dongle.disconnect stTwoQueued).2 =
         [(7, CmdErr.disconnected), (8, CmdErr.disconnected)]) := by
  decide

/-- Claim C5 (amended): `write` splits the outbound buffer into
ceil(len / 20) chunks issued in order — flattening the issued chunk writes
reconstructs the buffer, every chunk before the last is exactly 20 bytes
and every chunk is nonempty and at most 20 bytes — but the call returns
`undefined` immediately instead of a completion that settles once all
underlying writes have completed. -/
theorem writeChunkingSpec (data : List Nat) :
    (Dongle.write true noFail data).issuedWrites.length = (data.length + 19) / 20 ∧
    (Dongle.write true noFail data).issuedWrites.flatten = data ∧
    (∀ c ∈ (Dongle.write true noFail data).issuedWrites.dropLast, c.length = 20) ∧
    (∀ c ∈ (Dongle.write true noFail data).issuedWrites, 0 < c.length ∧ c.length ≤ 20) ∧
    (Dongle.write true noFail data).returned = WriteReturn.undefined := by
  refine ⟨?_, ?_, ?_, ?_, rfl⟩
  · simpa [Dongle.write] using writeChunks_length data
  · simpa [Dongle.write] using writeChunks_flatten data
  · simpa [Dongle.write] using writeChunks_dropLast data
  · simpa [Dongle.write] using writeChunks_sizes data

/-- Claim C5 (witness): a 45-byte buffer is written as exactly three
chunks of sizes 20, 20 and 5, in order. -/
theorem writeChunkingSpecInst :
    (Dongle.write true noFail (List.range 45)).issuedWrites.flatten = List.range 45 ∧
    (Dongle.write true noFail (List.range 45)).issuedWrites.map List.length = [20, 20, 5] :=
  ⟨(writeChunkingSpec (List.range 45)).2.1, by decide⟩

/-- Claim C5 (counterexample): at a 45-byte buffer the chunking is as
claimed, but the send does not complete once all underlying writes have
completed — `write` returns `undefined`, so the claim as a whole is false
at this input. -/
theorem writeReturnCex :
    ¬ ((Dongle.write true noFail (List.range 45)).issuedWrites.map List.length = [20, 20, 5] ∧
       (Dongle.write true noFail (List.range 45)).returned = WriteReturn.promiseAll) := by
  decide

/-- Claim C6 (amended): a failing chunk write is swallowed, not surfaced.
The observable result of `write` is independent of the chunk-write
outcomes: every chunk write is still issued, no error reaches the caller
(the rejection of the aggregate promise is consumed by an empty catch
handler) and the caller receives `undefined`. -/
theorem writeErrSwallowedSpec (data : List Nat) (f g : Nat → Option Nat) :
    (Dongle.write true f data).surfacedError = none ∧
    (Dongle.write true f data).issuedWrites = writeChunks data ∧
    (Dongle.write true f data).returned = WriteReturn.undefined ∧
    Dongle.write true f data = Dongle.write true g data :=
  ⟨rfl, rfl, rfl, rfl⟩

/-- Claim C6 (witness): the amended behaviour at a 45-byte buffer whose
first chunk write fails. -/
theorem writeErrSwallowedSpecInst :
    (Dongle.write true failFirst (List.range 45)).surfacedError = none :=
  (writeErrSwallowedSpec (List.range 45) failFirst noFail).1

/-- Claim C6 (counterexample): a 45-byte send whose first chunk write
fails with transport error 1 does not fail with that error — nothing is
surfaced to the caller — so the claim is false at this input. -/
theorem writeErrSwallowedCex :
    failFirst 0 = some 1 ∧
    0 < (Dongle.write true failFirst (List.range 45)).issuedWrites.length ∧
    (Dongle.write true failFirst (List.range 45)).surfacedError ≠ some 1 ∧
    (Dongle.write true failFirst (List.range 45)).surfacedError = none :=
  ⟨rfl, by decide, by decide, rfl⟩

/-- Claim C7: for every slot index at or above the number of notification
slots, `watch` rejects with the invalid-slot error, issues no BLE action
at all (no unsubscribe, no WATCH command, no subscribe) and leaves the
dongle state — in particular the callback table — unchanged. -/
theorem watchInvalidSlot (st : Dongle) (slot id address len cb : Nat)
    (h : numStatus ≤ slot) :
    Dongle.watch st slot id address len cb =
      { state := st, actions := [], result := Except.error JsReject.invalidWatchSlot } := by
  unfold Dongle.watch
  rw [if_neg (Nat.not_lt.mpr h)]

/-- Claim C7 (witness): slot 20 is out of range and is rejected with no
effect. -/
theorem watchInvalidSlotInst :
    numStatus ≤ 20 ∧
    Dongle.watch initialDongle 20 1 95 1 7 =
      { state := initialDongle, actions := [],
        result := Except.error JsReject.invalidWatchSlot } :=
  ⟨by decide, watchInvalidSlot initialDongle 20 1 95 1 7 (by decide)⟩

/-- Claim C8: for every valid slot, `watch` followed by `unwatch` on that
slot leaves the slot with no registered callback and not subscribed to
hardware notifications, and the `unwatch` issues an UNWATCH command whose
payload names exactly that slot. -/
theorem watchThenUnwatch (st : Dongle) (slot id address len cb : Nat)
    (h : slot < numStatus) :
    (Dongle.unwatch (Dongle.watch st slot id address len cb).state slot).state.watcherCb slot =
      none ∧
    (Dongle.unwatch (Dongle.watch st slot id address len cb).state slot).state.statusSubscribed
      slot = false ∧
    (Dongle.unwatch (Dongle.watch st slot id address len cb).state slot).actions =
      [BleAction.unsubscribeStatus slot,
        BleAction.sendCommand DONGLE_ID OP_UNWATCH [slot]] ∧
    (Dongle.unwatch (Dongle.watch st slot id address len cb).state slot).result =
      Except.ok () := by
  have h256 : slot % 256 = slot :=
    Nat.mod_eq_of_lt (Nat.lt_of_lt_of_le h (by decide))
  simp [Dongle.watch, Dongle.unwatch, h, bufferFrom, h256]

/-- Claim C8 (witness): watching then unwatching slot 0. -/
theorem watchThenUnwatchInst :
    (0 : Nat) < numStatus ∧
    ((Dongle.unwatch (Dongle.watch initialDongle 0 1 95 1 3).state 0).state.watcherCb 0 =
        none ∧
      (Dongle.unwatch (Dongle.watch initialDongle 0 1 95 1 3).state 0).state.statusSubscribed
        0 = false ∧
      (Dongle.unwatch (Dongle.watch initialDongle 0 1 95 1 3).state 0).actions =
        [BleAction.unsubscribeStatus 0,
          BleAction.sendCommand DONGLE_ID OP_UNWATCH [0]] ∧
      (Dongle.unwatch (Dongle.watch initialDongle 0 1 95 1 3).state 0).result =
        Except.ok ()) :=
  ⟨by decide, watchThenUnwatch initialDongle 0 1 95 1 3 (by decide)⟩

/-- Claim C9: for every valid slot and distinct callbacks, watching the
slot twice leaves the second callback installed (last-writer-wins): a
subsequent notification routed to the slot invokes the second callback,
exactly once, and never the first. -/
theorem watchLastWriterWins (st : Dongle) (slot id1 a1 l1 cb1 id2 a2 l2 cb2 : Nat)
    (h : slot < numStatus) (hcb : cb1 ≠ cb2) (data : List Nat) :
    (Dongle.watch (Dongle.watch st slot id1 a1 l1 cb1).state slot id2 a2 l2 cb2).state.watcherCb
        slot = some cb2 ∧
    Dongle.onStatus
        (Dongle.watch (Dongle.watch st slot id1 a1 l1 cb1).state slot id2 a2 l2 cb2).state
        slot data = [(cb2, data, slot)] ∧
    (cb1, data, slot) ∉
      Dongle.onStatus
        (Dongle.watch (Dongle.watch st slot id1 a1 l1 cb1).state slot id2 a2 l2 cb2).state
        slot data := by
  simp [Dongle.watch, Dongle.onStatus, h, hcb]

/-- Claim C9 (witness): watching slot 0 with callback 1 then callback 2
routes a notification to callback 2 only. -/
theorem watchLastWriterWinsInst :
    (0 : Nat) < numStatus ∧ (1 : Nat) ≠ 2 ∧
    ((Dongle.watch (Dongle.watch initialDongle 0 1 95 1 1).state 0 1 96 1 2).state.watcherCb 0 =
        some 2 ∧
      Dongle.onStatus (Dongle.watch (Dongle.watch initialDongle 0 1 95 1 1).state 0 1 96 1
        2).state 0 [5] = [(2, [5], 0)] ∧
      (1, [5], 0) ∉
        Dongle.onStatus (Dongle.watch (Dongle.watch initialDongle 0 1 95 1 1).state 0 1 96 1
          2).state 0 [5]) :=
  ⟨by decide, by decide,
    watchLastWriterWins initialDongle 0 1 95 1 1 1 96 1 2 (by decide) (by decide) [5]⟩

/-- Claim C10: `watch(0, 1, 0x005F, 1, cb)` on a fresh dongle issues
exactly one command action, a WATCH command with the five-byte payload
slot 0, unit 1, address high byte 0x00, address low byte 0x5F, length 1,
leaves slot 0 subscribed, and a subsequent notification payload on slot
0 invokes the installed callback exactly once with that payload and the
slot number. -/
theorem watchEndToEnd (data : List Nat) :
    (Dongle.watch initialDongle 0 1 0x5F 1 5).actions.filter isSendCommand =
      [BleAction.sendCommand DONGLE_ID OP_WATCH [0, 1, 0x00, 0x5F, 1]] ∧
    (Dongle.watch initialDongle 0 1 0x5F 1 5).state.statusSubscribed 0 = true ∧
    Dongle.onStatus (Dongle.watch initialDongle 0 1 0x5F 1 5).state 0 data =
      [(5, data, 0)] :=
  ⟨rfl, rfl, rfl⟩

/-- Claim C10 (witness): the scenario at a concrete one-byte notification
payload. -/
theorem watchEndToEndInst :
    (Dongle.watch initialDongle 0 1 0x5F 1 5).actions.filter isSendCommand =
      [BleAction.sendCommand DONGLE_ID OP_WATCH [0, 1, 0x00, 0x5F, 1]] ∧
    (Dongle.watch initialDongle 0 1 0x5F 1 5).state.statusSubscribed 0 = true ∧
    Dongle.onStatus (Dongle.watch initialDongle 0 1 0x5F 1 5).state 0 [171] =
      [(5, [171], 0)] :=
  watchEndToEnd [171]
